import Mathlib

/-
  Verification development for the Katha story app (src/src/App.tsx, src/server.ts),
  focusing on the authorization and quota-gated assistant gateway: the URL
  authorizer, the chat quota tracker, the chat send handler, and the one-shot
  story-assistance generator. Each definition is a shallow embedding of the
  corresponding TypeScript code.
-/

namespace Katha

/-- Deployment mode. In the code, Restricted corresponds to a hostname
containing the shared marker (isSharedUrl = true) and Owner to any other
deployment (isSharedUrl = false). -/
inductive Mode
  | Owner
  | Restricted
deriving DecidableEq, Repr

/-- Role of a chat message: "user" or "ai" in the code. -/
inductive Role
  | User
  | Assistant
deriving DecidableEq, Repr

/-- One entry of the chat transcript: the code stores objects of shape
(role, text). -/
structure ChatMessage where
  role : Role
  text : String
deriving DecidableEq, Repr

/-- url.replace with the pattern matching one or more trailing slashes:
removes every trailing slash character. -/
def stripTrailingSlashes (s : String) : String :=
  ⟨(s.data.reverse.dropWhile (fun c => c = '/')).reverse⟩

/-- toLowerCase: lower-case every character of the string. -/
def lowerStr (s : String) : String :=
  ⟨s.data.map Char.toLower⟩

/-- startsWith: the second string is a prefix of the first. -/
def startsWithStr (s pre : String) : Bool :=
  pre.data.isPrefixOf s.data

/-- trim: remove leading and trailing whitespace. -/
def trimStr (s : String) : String :=
  ⟨((s.data.dropWhile Char.isWhitespace).reverse.dropWhile Char.isWhitespace).reverse⟩

/-- The normalize helper inside isUrlAuthorized: strip all trailing slash
characters, then lower-case. -/
def normalizeUrl (s : String) : String :=
  lowerStr (stripTrailingSlashes s)

/-- Embedding of isUrlAuthorized (App.tsx lines 92-101). The mode input
replaces the isSharedUrl check: Owner means not on the shared URL, so the
function returns true at once. In Restricted mode an empty authorizedUrl is
refused, otherwise the normalized current origin is compared for equality
with the normalized authorized URL, or the lower-cased full href is tested
for starting with the normalized authorized URL. -/
def isUrlAuthorized (mode : Mode) (authorizedUrl origin href : String) : Bool :=
  match mode with
  | Mode.Owner => true
  | Mode.Restricted =>
    if authorizedUrl = "" then
      false
    else
      let currentOrigin := normalizeUrl origin
      let targetUrl := normalizeUrl authorizedUrl
      (currentOrigin == targetUrl) || startsWithStr (lowerStr href) targetUrl

/-- C1: isUrlAuthorized returns true in Owner mode for any input; in
Restricted mode it returns false on an empty authorizedUrl, and on a
non-empty one it returns true exactly when the normalized current origin
equals the normalized authorized URL or the lower-cased full current URL
starts with the normalized authorized URL. -/
theorem isUrlAuthorized_characterization :
    (∀ a o h, isUrlAuthorized Mode.Owner a o h = true) ∧
    (∀ o h, isUrlAuthorized Mode.Restricted "" o h = false) ∧
    (∀ a o h, a ≠ "" →
      (isUrlAuthorized Mode.Restricted a o h = true ↔
        (normalizeUrl o = normalizeUrl a ∨
          startsWithStr (lowerStr h) (normalizeUrl a) = true))) := by
  refine ⟨fun a o h => rfl, fun o h => rfl, fun a o h ha => ?_⟩
  simp [isUrlAuthorized, ha]

/-- Witness for C1 at the spec scenario: Restricted mode with authorized URL
https://app.example.com and current origin https://APP.EXAMPLE.COM/ is
authorized (case and trailing-slash insensitive). -/
theorem isUrlAuthorized_characterization_witness :
    isUrlAuthorized Mode.Restricted "https://app.example.com"
      "https://APP.EXAMPLE.COM/" "https://app.example.com/" = true :=
  (isUrlAuthorized_characterization.2.2 "https://app.example.com"
      "https://APP.EXAMPLE.COM/" "https://app.example.com/" (by decide)).mpr
    (Or.inl (by decide))

/-- Result of the provider call genAI.models.generateContent: either a
resolved response whose text field may be missing or empty, or a thrown
error whose message field may be missing. -/
inductive ProviderResult
  | ok (text : Option String)
  | err (message : Option String)
deriving DecidableEq, Repr

/-- JavaScript truthiness of response.text: false for undefined and for the
empty string. -/
def truthyText : Option String → Bool
  | some s => s ≠ ""
  | none => false

/-- The message limit constant CHAT_LIMIT = 3 (App.tsx line 187). -/
def CHAT_LIMIT : Int := 3

/-- The component state touched by the modelled operations: the story editor
fields title and content, the chat transcript, the chat input box, the
loading flag, the in-memory quota count messageCount, and the durable
localStorage entry under the key katha_chat_limit. -/
structure AppState where
  title : String
  content : String
  chatMessages : List ChatMessage
  chatInput : String
  isChatLoading : Bool
  messageCount : Int
  stored : Option String
deriving DecidableEq, Repr

/-- The environment of one operation: the deployment mode (Restricted when
the hostname carries the shared marker), the configured authorized URL, the
current origin and full URL, the outcome the provider would produce if
called, and whether the durable write localStorage.setItem would throw
(with the message of that exception). -/
structure Env where
  mode : Mode
  authorizedUrl : String
  origin : String
  href : String
  provider : ProviderResult
  storeFails : Bool
  storeErrMessage : Option String
deriving DecidableEq, Repr

/-- An operation returns the updated state plus whether the AI provider was
actually called. -/
structure StepOut where
  state : AppState
  calledProvider : Bool
deriving DecidableEq, Repr

/-- The assistant message posted when the URL is not authorized
(App.tsx line 194). -/
def notAuthorizedText : String :=
  "This URL is not authorized for AI features. Please configure the Authorized URL in settings (Owner only)."

/-- The assistant message posted when the shared-mode limit is reached
(App.tsx line 201). -/
def limitReachedText : String :=
  "Limit reached. You can only send 3 messages to the Katha Assistant in the shared version."

/-- err.message with optional chaining, or the fallback "Connection error":
the fallback is used when message is undefined or empty. -/
def jsErrorMessage (m : Option String) : String :=
  match m with
  | some s => if s = "" then "Connection error" else s
  | none => "Connection error"

/-- The assistant message built in the catch block of handleSendMessage
(App.tsx line 235). -/
def chatFailText (m : Option String) : String :=
  "Sorry, I\x27m having trouble connecting: " ++ jsErrorMessage m ++ ". Please try again."

/-- Embedding of the handler handleSendMessage (App.tsx lines 189-239).
Its steps, in source order: return if the trimmed input is blank; if the
URL is not authorized, append the not-authorized assistant message and
clear the input; if on the shared URL with messageCount at or above
CHAT_LIMIT, append the limit-reached assistant message and clear the input;
otherwise append the user message, clear the input, set the loading flag,
call the provider, and on a truthy response text append the assistant
message and, on the shared URL, increment messageCount and persist it
(a throwing persist is caught by the same catch block, which appends the
connection-error assistant message); a rejected provider call is caught and
appends the connection-error assistant message; finally the loading flag is
cleared. -/
def handleSendMessage (env : Env) (s : AppState) : StepOut :=
  if trimStr s.chatInput = "" then ⟨s, false⟩
  else if isUrlAuthorized env.mode env.authorizedUrl env.origin env.href = false then
    ⟨{ s with chatMessages := s.chatMessages ++ [⟨Role.Assistant, notAuthorizedText⟩],
              chatInput := "" }, false⟩
  else if env.mode = Mode.Restricted ∧ CHAT_LIMIT ≤ s.messageCount then
    ⟨{ s with chatMessages := s.chatMessages ++ [⟨Role.Assistant, limitReachedText⟩],
              chatInput := "" }, false⟩
  else
    let userMessage := s.chatInput
    let s1 : AppState := { s with
      chatMessages := s.chatMessages ++ [⟨Role.User, userMessage⟩],
      chatInput := "",
      isChatLoading := true }
    let s2 : AppState :=
      match env.provider with
      | ProviderResult.ok text =>
        if truthyText text then
          let withAi : AppState :=
            { s1 with chatMessages := s1.chatMessages ++ [⟨Role.Assistant, text.getD ""⟩] }
          if env.mode = Mode.Restricted then
            let newCount := withAi.messageCount + 1
            let incremented : AppState := { withAi with messageCount := newCount }
            if env.storeFails then
              { incremented with chatMessages :=
                  incremented.chatMessages ++ [⟨Role.Assistant, chatFailText env.storeErrMessage⟩] }
            else
              { incremented with stored := some (toString newCount) }
          else withAi
        else s1
      | ProviderResult.err m =>
        { s1 with chatMessages := s1.chatMessages ++ [⟨Role.Assistant, chatFailText m⟩] }
    ⟨{ s2 with isChatLoading := false }, true⟩

/-- The disabled attribute of the chat form submit button (App.tsx line
503): disabled while loading, while the trimmed input is blank, or on the
shared URL once messageCount reached CHAT_LIMIT. The button is the only
submitter of the chat form, so form submission (click or implicit Enter
submission) is gated on this flag. -/
def submitDisabled (env : Env) (s : AppState) : Bool :=
  s.isChatLoading || (trimStr s.chatInput == "") ||
    ((env.mode == Mode.Restricted) && decide (CHAT_LIMIT ≤ s.messageCount))

/-- A submit event on the chat form: nothing happens while the submit
button is disabled, otherwise the handler handleSendMessage runs. -/
def submitEvent (env : Env) (s : AppState) : StepOut :=
  if submitDisabled env s then ⟨s, false⟩ else handleSendMessage env s

/-- The separator prepended to an accepted AI suggestion
(App.tsx line 166). -/
def aiSuggestionSeparator : String :=
  "\n\n---\n*AI Suggestion:*\n"

/-- Embedding of generateAIAssistance (App.tsx lines 151-174), the one-shot
story-writing helper. Its steps: return if title and content are both
empty; if the URL is not authorized, show an alert and return; otherwise
call the provider once and, on a truthy response text, append the
suggestion to the editor content; a rejected call is caught and shown as an
alert. It never touches messageCount or the durable quota entry. -/
def generateAIAssistance (env : Env) (s : AppState) : StepOut :=
  if s.title = "" ∧ s.content = "" then ⟨s, false⟩
  else if isUrlAuthorized env.mode env.authorizedUrl env.origin env.href = false then
    ⟨s, false⟩
  else
    match env.provider with
    | ProviderResult.ok text =>
      if truthyText text then
        ⟨{ s with content := s.content ++ aiSuggestionSeparator ++ text.getD "" }, true⟩
      else ⟨s, true⟩
    | ProviderResult.err _ => ⟨s, true⟩

/-- Value of the longest leading run of decimal digits of a character list,
or none when that run is empty. -/
def leadingDigitsVal (cs : List Char) : Option Nat :=
  let ds := cs.takeWhile Char.isDigit
  if ds.isEmpty then none
  else some (ds.foldl (fun n c => n * 10 + (c.toNat - 48)) 0)

/-- JavaScript parseInt with radix 10: skip leading whitespace, read an
optional sign, then the longest run of decimal digits; the result is NaN
(modelled as none) when that run is empty. -/
def jsParseInt10 (s : String) : Option Int :=
  match s.data.dropWhile Char.isWhitespace with
  | '-' :: rest => (leadingDigitsVal rest).map (fun n => -(n : Int))
  | '+' :: rest => (leadingDigitsVal rest).map (fun n => (n : Int))
  | t => (leadingDigitsVal t).map (fun n => (n : Int))

/-- Embedding of the useState initializer for messageCount (App.tsx lines
180-183): read katha_chat_limit from localStorage; a null or empty value
(both falsy) gives 0, any other value is passed to parseInt with radix 10,
whose result is NaN (none) when the value has no leading decimal digits. -/
def loadCount (saved : Option String) : Option Int :=
  match saved with
  | none => some 0
  | some s => if s = "" then some 0 else jsParseInt10 s

/-- The remaining-messages line of the chat form (App.tsx lines 509-513):
on the shared URL the value CHAT_LIMIT - messageCount is rendered only
while messageCount is below CHAT_LIMIT; otherwise the line is absent. -/
def remainingDisplay (count : Int) : Option Int :=
  if count < CHAT_LIMIT then some (CHAT_LIMIT - count) else none

/-- The exhaustion test messageCount >= CHAT_LIMIT used at App.tsx lines
200, 487, 498 and 503. -/
def isExhausted (count : Int) : Bool :=
  decide (CHAT_LIMIT ≤ count)

/-- One full chat turn from the UI: the user types the given input into the
chat box, then the form is submitted. -/
def chatTurn (env : Env) (input : String) (s : AppState) : AppState :=
  (submitEvent env { s with chatInput := input }).state

/-- Branch equation: a blank submission is a complete no-op. -/
theorem hsm_blank (env : Env) (s : AppState) (h : trimStr s.chatInput = "") :
    handleSendMessage env s = ⟨s, false⟩ := by
  simp [handleSendMessage, h]

/-- Branch equation: a non-blank submission on an unauthorized URL appends
only the not-authorized assistant message and clears the input. -/
theorem hsm_unauth (env : Env) (s : AppState)
    (h1 : ¬ trimStr s.chatInput = "")
    (h2 : isUrlAuthorized env.mode env.authorizedUrl env.origin env.href = false) :
    handleSendMessage env s =
      ⟨{ s with chatMessages := s.chatMessages ++ [⟨Role.Assistant, notAuthorizedText⟩],
                chatInput := "" }, false⟩ := by
  simp [handleSendMessage, h1, h2]

/-- Branch equation: a non-blank authorized submission in Restricted mode
with the quota exhausted appends only the limit-reached assistant message
and clears the input. -/
theorem hsm_limit (env : Env) (s : AppState)
    (h1 : ¬ trimStr s.chatInput = "")
    (h2 : isUrlAuthorized env.mode env.authorizedUrl env.origin env.href = true)
    (h3 : env.mode = Mode.Restricted)
    (h4 : CHAT_LIMIT ≤ s.messageCount) :
    handleSendMessage env s =
      ⟨{ s with chatMessages := s.chatMessages ++ [⟨Role.Assistant, limitReachedText⟩],
                chatInput := "" }, false⟩ := by
  have h2r : isUrlAuthorized Mode.Restricted env.authorizedUrl env.origin env.href = true :=
    h3 ▸ h2
  simp [handleSendMessage, h1, h2r, h3, h4]

/-- Branch equation: Owner mode, provider succeeds with non-empty text. -/
theorem hsm_ok_truthy_owner (env : Env) (s : AppState) (t : String)
    (h1 : ¬ trimStr s.chatInput = "")
    (hmode : env.mode = Mode.Owner)
    (hp : env.provider = ProviderResult.ok (some t))
    (ht : ¬ t = "") :
    handleSendMessage env s =
      ⟨{ s with chatMessages := s.chatMessages ++
                  [⟨Role.User, s.chatInput⟩, ⟨Role.Assistant, t⟩],
                chatInput := "", isChatLoading := false }, true⟩ := by
  simp [handleSendMessage, h1, hmode, isUrlAuthorized, hp, truthyText, ht]

/-- Branch equation: Restricted mode below the limit, provider succeeds
with non-empty text and the durable write succeeds: the count is
incremented and persisted. -/
theorem hsm_ok_truthy_restricted (env : Env) (s : AppState) (t : String)
    (h1 : ¬ trimStr s.chatInput = "")
    (h2 : isUrlAuthorized env.mode env.authorizedUrl env.origin env.href = true)
    (hmode : env.mode = Mode.Restricted)
    (h4 : ¬ CHAT_LIMIT ≤ s.messageCount)
    (hp : env.provider = ProviderResult.ok (some t))
    (ht : ¬ t = "")
    (hsf : env.storeFails = false) :
    handleSendMessage env s =
      ⟨{ s with chatMessages := s.chatMessages ++
                  [⟨Role.User, s.chatInput⟩, ⟨Role.Assistant, t⟩],
                chatInput := "", isChatLoading := false,
                messageCount := s.messageCount + 1,
                stored := some (toString (s.messageCount + 1)) }, true⟩ := by
  have h2r : isUrlAuthorized Mode.Restricted env.authorizedUrl env.origin env.href = true :=
    hmode ▸ h2
  simp [handleSendMessage, h1, h2r, hmode, h4, hp, truthyText, ht, hsf]

/-- Branch equation: Restricted mode below the limit, provider succeeds
with non-empty text but the durable write throws: the count is incremented
in memory, the store is left unchanged, and the catch block appends the
connection-error assistant message after the successful one. -/
theorem hsm_ok_truthy_restricted_storeFail (env : Env) (s : AppState) (t : String)
    (h1 : ¬ trimStr s.chatInput = "")
    (h2 : isUrlAuthorized env.mode env.authorizedUrl env.origin env.href = true)
    (hmode : env.mode = Mode.Restricted)
    (h4 : ¬ CHAT_LIMIT ≤ s.messageCount)
    (hp : env.provider = ProviderResult.ok (some t))
    (ht : ¬ t = "")
    (hsf : env.storeFails = true) :
    handleSendMessage env s =
      ⟨{ s with chatMessages := s.chatMessages ++
                  [⟨Role.User, s.chatInput⟩, ⟨Role.Assistant, t⟩,
                   ⟨Role.Assistant, chatFailText env.storeErrMessage⟩],
                chatInput := "", isChatLoading := false,
                messageCount := s.messageCount + 1 }, true⟩ := by
  have h2r : isUrlAuthorized Mode.Restricted env.authorizedUrl env.origin env.href = true :=
    hmode ▸ h2
  simp [handleSendMessage, h1, h2r, hmode, h4, hp, truthyText, ht, hsf]

/-- Branch equation: guards pass and the provider succeeds but with empty
or missing text: only the user message is appended. -/
theorem hsm_ok_empty (env : Env) (s : AppState) (text : Option String)
    (h1 : ¬ trimStr s.chatInput = "")
    (h2 : isUrlAuthorized env.mode env.authorizedUrl env.origin env.href = true)
    (h3 : ¬ (env.mode = Mode.Restricted ∧ CHAT_LIMIT ≤ s.messageCount))
    (hp : env.provider = ProviderResult.ok text)
    (ht : truthyText text = false) :
    handleSendMessage env s =
      ⟨{ s with chatMessages := s.chatMessages ++ [⟨Role.User, s.chatInput⟩],
                chatInput := "", isChatLoading := false }, true⟩ := by
  simp [handleSendMessage, h1, h2, h3, hp, ht]

/-- Branch equation: guards pass and the provider call is rejected: the
user message and the connection-error assistant message are appended. -/
theorem hsm_err (env : Env) (s : AppState) (m : Option String)
    (h1 : ¬ trimStr s.chatInput = "")
    (h2 : isUrlAuthorized env.mode env.authorizedUrl env.origin env.href = true)
    (h3 : ¬ (env.mode = Mode.Restricted ∧ CHAT_LIMIT ≤ s.messageCount))
    (hp : env.provider = ProviderResult.err m) :
    handleSendMessage env s =
      ⟨{ s with chatMessages := s.chatMessages ++
                  [⟨Role.User, s.chatInput⟩, ⟨Role.Assistant, chatFailText m⟩],
                chatInput := "", isChatLoading := false }, true⟩ := by
  simp [handleSendMessage, h1, h2, h3, hp]

/-- The handler never decreases the in-memory count: it is unchanged or
incremented by one. -/
theorem hsm_count_cases (env : Env) (s : AppState) :
    (handleSendMessage env s).state.messageCount = s.messageCount ∨
    (handleSendMessage env s).state.messageCount = s.messageCount + 1 := by
  unfold handleSendMessage
  repeat' split
  all_goals dsimp only
  all_goals omega

/-- A submit event never decreases the in-memory count. -/
theorem submit_count_le (env : Env) (s : AppState) :
    s.messageCount ≤ (submitEvent env s).state.messageCount := by
  unfold submitEvent
  split
  · exact le_refl _
  · rcases hsm_count_cases env s with h | h <;> omega

/-- The one-shot generator leaves the in-memory count unchanged. -/
theorem gen_count_unchanged (env : Env) (s : AppState) :
    (generateAIAssistance env s).state.messageCount = s.messageCount := by
  unfold generateAIAssistance
  repeat' split
  all_goals rfl

/-- A Restricted-mode environment whose URL is authorized (the authorized
URL equals the current origin) and whose provider answers with the
non-empty text reply. -/
def envOkShared : Env :=
  ⟨Mode.Restricted, "a", "a", "a", ProviderResult.ok (some "reply"), false, none⟩

/-- An Owner-mode environment whose provider resolves with an empty text. -/
def envEmptyOwner : Env :=
  ⟨Mode.Owner, "", "a", "a", ProviderResult.ok (some ""), false, none⟩

/-- An Owner-mode environment whose provider call is rejected with the
message timeout. -/
def envErrOwner : Env :=
  ⟨Mode.Owner, "", "a", "a", ProviderResult.err (some "timeout"), false, none⟩

/-- A Restricted-mode authorized environment whose provider succeeds but
whose durable write throws a QuotaExceededError. -/
def envStoreFail : Env :=
  ⟨Mode.Restricted, "a", "a", "a", ProviderResult.ok (some "Here you go"), true,
    some "QuotaExceededError"⟩

/-- The empty application state: nothing typed, no messages, count 0, no
durable entry. -/
def initialApp : AppState :=
  ⟨"", "", [], "", false, 0, none⟩

/-- State for the exhausted-quota scenario: the user typed hello and the
count already reached the limit 3. -/
def stateHello3 : AppState :=
  ⟨"", "", [], "hello", false, 3, some "3"⟩

/-- State for a first chat turn: the user typed hi, count 0. -/
def stateHi : AppState :=
  ⟨"", "", [], "hi", false, 0, none⟩

/-- Editor state for the one-shot generator: a title and some content are
present, count 0. -/
def stateGen : AppState :=
  ⟨"My Tale", "Once upon a time", [], "", false, 0, none⟩

/-- State with a chat turn in flight: the loading flag is set and the user
typed a next message. -/
def stateSending : AppState :=
  ⟨"", "", [⟨Role.User, "first"⟩], "next", true, 0, none⟩

/-- State whose count already reached the limit. -/
def stateExhausted : AppState :=
  ⟨"", "", [], "x", false, 3, none⟩

/-- C2 counterexample: in Restricted mode with count = 3 = limit, submitting
hello runs the quota guard before the user message is appended, so the
transcript gains only the limit-reached assistant message: the user message
User(hello) is never added and the claimed transcript User(hello) then
Assistant(limit reached) does not occur. The gateway is not called and the
count stays 3, but the user does not see their own message, contrary to the
claim. -/
theorem hsm_limit_drops_user_message_cex :
    (handleSendMessage envOkShared stateHello3).state.chatMessages
        = [⟨Role.Assistant, limitReachedText⟩]
      ∧ ChatMessage.mk Role.User "hello" ∉
          (handleSendMessage envOkShared stateHello3).state.chatMessages
      ∧ (handleSendMessage envOkShared stateHello3).calledProvider = false
      ∧ (handleSendMessage envOkShared stateHello3).state.messageCount = 3 := by
  decide

/-- C2 amended: the handler checks authorization and quota first; an
unauthorized or quota-exhausted non-blank submission appends only the
corresponding explanatory assistant message, without the user message and
without calling the gateway; when both guards pass, the user message is
appended before any network activity, so every provider outcome leaves it
in the transcript. -/
theorem hsm_user_append_after_guards (env : Env) (s : AppState)
    (hblank : ¬ trimStr s.chatInput = "") :
    (isUrlAuthorized env.mode env.authorizedUrl env.origin env.href = false →
      (handleSendMessage env s).state.chatMessages
          = s.chatMessages ++ [⟨Role.Assistant, notAuthorizedText⟩]
        ∧ (handleSendMessage env s).calledProvider = false)
    ∧ (isUrlAuthorized env.mode env.authorizedUrl env.origin env.href = true →
        env.mode = Mode.Restricted → CHAT_LIMIT ≤ s.messageCount →
      (handleSendMessage env s).state.chatMessages
          = s.chatMessages ++ [⟨Role.Assistant, limitReachedText⟩]
        ∧ (handleSendMessage env s).calledProvider = false)
    ∧ (isUrlAuthorized env.mode env.authorizedUrl env.origin env.href = true →
        ¬ (env.mode = Mode.Restricted ∧ CHAT_LIMIT ≤ s.messageCount) →
      (∃ rest, (handleSendMessage env s).state.chatMessages
          = s.chatMessages ++ ⟨Role.User, s.chatInput⟩ :: rest)
        ∧ (handleSendMessage env s).calledProvider = true) := by
  refine ⟨fun h2 => ?_, fun h2 h3 h4 => ?_, fun h2 h3 => ?_⟩
  · rw [hsm_unauth env s hblank h2]
    exact ⟨rfl, rfl⟩
  · rw [hsm_limit env s hblank h2 h3 h4]
    exact ⟨rfl, rfl⟩
  · cases hp : env.provider with
    | ok text =>
      cases htt : truthyText text with
      | false =>
        rw [hsm_ok_empty env s text hblank h2 h3 hp htt]
        exact ⟨⟨[], rfl⟩, rfl⟩
      | true =>
        obtain ⟨t, ht, rfl⟩ : ∃ t, ¬ t = "" ∧ text = some t := by
          cases text with
          | none => simp [truthyText] at htt
          | some t => exact ⟨t, by simpa [truthyText] using htt, rfl⟩
        cases hmode : env.mode with
        | Owner =>
          rw [hsm_ok_truthy_owner env s t hblank hmode hp ht]
          exact ⟨⟨[⟨Role.Assistant, t⟩], by simp⟩, rfl⟩
        | Restricted =>
          have h4 : ¬ CHAT_LIMIT ≤ s.messageCount := fun hle => h3 ⟨hmode, hle⟩
          cases hsf : env.storeFails with
          | false =>
            rw [hsm_ok_truthy_restricted env s t hblank h2 hmode h4 hp ht hsf]
            exact ⟨⟨[⟨Role.Assistant, t⟩], by simp⟩, rfl⟩
          | true =>
            rw [hsm_ok_truthy_restricted_storeFail env s t hblank h2 hmode h4 hp ht hsf]
            exact ⟨⟨[⟨Role.Assistant, t⟩,
              ⟨Role.Assistant, chatFailText env.storeErrMessage⟩], by simp⟩, rfl⟩
    | err m =>
      rw [hsm_err env s m hblank h2 h3 hp]
      exact ⟨⟨[⟨Role.Assistant, chatFailText m⟩], by simp⟩, rfl⟩

/-- Witness for the amended C2 statement at a concrete passing submission:
in the authorized Restricted environment below the limit, the submitted
message hi heads the appended transcript suffix and the gateway is
called. -/
theorem hsm_user_append_after_guards_witness :
    (∃ rest, (handleSendMessage envOkShared stateHi).state.chatMessages
        = stateHi.chatMessages ++ ⟨Role.User, "hi"⟩ :: rest)
      ∧ (handleSendMessage envOkShared stateHi).calledProvider = true :=
  (hsm_user_append_after_guards envOkShared stateHi (by decide)).2.2
    (by decide) (by decide)

/-- C3 counterexample: in Restricted mode, on an authorized URL, a
successful one-shot story-assistance generation consumes an AI response
(the suggestion is appended to the editor content and the provider was
called) yet the quota count stays 0 instead of being incremented by 1, and
the durable entry stays absent. -/
theorem gen_success_no_increment_cex :
    (generateAIAssistance envOkShared stateGen).calledProvider = true
    ∧ (generateAIAssistance envOkShared stateGen).state.content
        = "Once upon a time" ++ aiSuggestionSeparator ++ "reply"
    ∧ (generateAIAssistance envOkShared stateGen).state.messageCount = 0
    ∧ (generateAIAssistance envOkShared stateGen).state.stored = none := by
  decide

/-- C3 amended: across the operations of the subsystem the quota count is
monotonically non-decreasing and never decremented; in Owner mode the chat
handler never changes it; each successful chat response consumed in
Restricted mode increments it by exactly 1; the one-shot story-assistance
generation never touches the count in any mode. -/
theorem messageCount_monotone (env : Env) (s : AppState) :
    (s.messageCount ≤ (submitEvent env s).state.messageCount
      ∧ s.messageCount ≤ (handleSendMessage env s).state.messageCount
      ∧ (generateAIAssistance env s).state.messageCount = s.messageCount)
    ∧ (env.mode = Mode.Owner →
        (handleSendMessage env s).state.messageCount = s.messageCount)
    ∧ (∀ t, env.mode = Mode.Restricted →
        env.provider = ProviderResult.ok (some t) → ¬ t = "" →
        ¬ trimStr s.chatInput = "" →
        isUrlAuthorized env.mode env.authorizedUrl env.origin env.href = true →
        ¬ CHAT_LIMIT ≤ s.messageCount →
        (handleSendMessage env s).state.messageCount = s.messageCount + 1) := by
  refine ⟨⟨submit_count_le env s, ?_, gen_count_unchanged env s⟩, ?_, ?_⟩
  · rcases hsm_count_cases env s with h | h <;> omega
  · intro hmode
    unfold handleSendMessage
    repeat' split
    all_goals simp_all
  · intro t hmode hp ht hblank hauth h4
    cases hsf : env.storeFails with
    | false => rw [hsm_ok_truthy_restricted env s t hblank hauth hmode h4 hp ht hsf]
    | true => rw [hsm_ok_truthy_restricted_storeFail env s t hblank hauth hmode h4 hp ht hsf]

/-- Witness for the amended C3 statement: in the authorized Restricted
environment a consumed successful chat response raises the count from 0
to 1. -/
theorem messageCount_monotone_witness :
    (handleSendMessage envOkShared stateHi).state.messageCount
      = stateHi.messageCount + 1 :=
  (messageCount_monotone envOkShared stateHi).2.2 "reply" rfl rfl
    (by decide) (by decide) (by decide) (by decide)

/-- C4: the rendered remaining value agrees with max(0, limit - count) and
is never negative when shown; exhaustion (count at or above CHAT_LIMIT) is
preserved by every operation, since no operation decreases the count and no
reset exists; along a concrete run from count 0, three successful
Restricted-mode chat turns make isExhausted true while it is still false
after two. -/
theorem quota_remaining_exhaustion :
    (∀ c : Int, (remainingDisplay c).getD 0 = max 0 (CHAT_LIMIT - c))
    ∧ (∀ c v : Int, remainingDisplay c = some v → 0 ≤ v)
    ∧ (∀ env s, isExhausted s.messageCount = true →
        isExhausted (submitEvent env s).state.messageCount = true
        ∧ isExhausted (generateAIAssistance env s).state.messageCount = true)
    ∧ isExhausted (chatTurn envOkShared "m3" (chatTurn envOkShared "m2"
        (chatTurn envOkShared "m1" initialApp))).messageCount = true
    ∧ isExhausted (chatTurn envOkShared "m2"
        (chatTurn envOkShared "m1" initialApp)).messageCount = false := by
  refine ⟨?_, ?_, ?_, by decide, by decide⟩
  · intro c
    by_cases hc : c < CHAT_LIMIT
    · rw [remainingDisplay, if_pos hc]
      simp only [Option.getD_some]
      simp only [CHAT_LIMIT] at hc ⊢
      omega
    · rw [remainingDisplay, if_neg hc]
      simp only [Option.getD_none]
      simp only [CHAT_LIMIT] at hc ⊢
      omega
  · intro c v h
    by_cases hc : c < CHAT_LIMIT
    · rw [remainingDisplay, if_pos hc] at h
      injection h with h
      simp only [CHAT_LIMIT] at hc h
      omega
    · rw [remainingDisplay, if_neg hc] at h
      exact absurd h (by simp)
  · intro env s h
    have h1 := submit_count_le env s
    have h2 := gen_count_unchanged env s
    simp only [isExhausted, CHAT_LIMIT, decide_eq_true_eq] at h ⊢
    omega

/-- Witness for C4: from an already exhausted state, a further submit in
the authorized Restricted environment leaves isExhausted true. -/
theorem quota_remaining_exhaustion_witness :
    isExhausted (submitEvent envOkShared stateExhausted).state.messageCount = true :=
  (quota_remaining_exhaustion.2.2.1 envOkShared stateExhausted (by decide)).1

/-- C5 counterexample: a stored value that is unparsable as a decimal
integer does not default to 0: parseInt with radix 10 on abc yields NaN
(modelled as none), so the loaded count is not 0. -/
theorem loadCount_unparsable_cex :
    loadCount (some "abc") = none ∧ ¬ loadCount (some "abc") = some 0 := by
  decide

/-- C5 amended: the count read once at startup defaults to 0 when the
stored value is absent or is the empty string; any other value is parsed
with JavaScript parseInt semantics in radix 10, so a value without leading
decimal digits yields NaN, not 0; and each successful Restricted-mode
increment is re-persisted as the decimal string of the new count. -/
theorem loadCount_defaults :
    loadCount none = some 0
    ∧ loadCount (some "") = some 0
    ∧ (∀ s, ¬ s = "" → loadCount (some s) = jsParseInt10 s)
    ∧ (∀ env s t, env.mode = Mode.Restricted →
        env.provider = ProviderResult.ok (some t) → ¬ t = "" →
        env.storeFails = false → ¬ trimStr s.chatInput = "" →
        isUrlAuthorized env.mode env.authorizedUrl env.origin env.href = true →
        ¬ CHAT_LIMIT ≤ s.messageCount →
        (handleSendMessage env s).state.stored
          = some (toString (s.messageCount + 1))) := by
  refine ⟨rfl, rfl, fun s hs => ?_, fun env s t hmode hp ht hsf hblank hauth h4 => ?_⟩
  · simp [loadCount, hs]
  · rw [hsm_ok_truthy_restricted env s t hblank hauth hmode h4 hp ht hsf]

/-- Witness for the amended C5 statement: a successful first chat turn in
the authorized Restricted environment persists the decimal string of the
incremented count. -/
theorem loadCount_defaults_witness :
    (handleSendMessage envOkShared stateHi).state.stored
      = some (toString (stateHi.messageCount + 1)) :=
  loadCount_defaults.2.2.2 envOkShared stateHi "reply" rfl rfl
    (by decide) rfl (by decide) (by decide) (by decide)

/-- C6: while a chat turn is in flight (the loading flag is set), a submit
event on the chat form is a complete no-op: the submit button, the only
submitter of the form, is disabled, so no second user message is appended
and no second provider call is dispatched. -/
theorem submit_noop_while_sending (env : Env) (s : AppState)
    (h : s.isChatLoading = true) :
    submitEvent env s = ⟨s, false⟩ := by
  simp [submitEvent, submitDisabled, h]

/-- Witness for C6: with a turn in flight and a non-blank input typed, a
submit event changes nothing. -/
theorem submit_noop_while_sending_witness :
    submitEvent envOkShared stateSending = ⟨stateSending, false⟩ :=
  submit_noop_while_sending envOkShared stateSending rfl

/-- C7 counterexample: when the provider resolves with empty text, the
handler appends no assistant message at all: the transcript gains only the
user message and contains no Assistant-role entry, contrary to the claimed
conversion of the EmptyResponse outcome into a user-visible assistant
message. The session does return to idle and the count is unchanged. -/
theorem empty_response_silent_cex :
    (handleSendMessage envEmptyOwner stateHi).state.chatMessages
        = [⟨Role.User, "hi"⟩]
    ∧ (∀ m ∈ (handleSendMessage envEmptyOwner stateHi).state.chatMessages,
        m.role ≠ Role.Assistant)
    ∧ (handleSendMessage envEmptyOwner stateHi).state.isChatLoading = false
    ∧ (handleSendMessage envEmptyOwner stateHi).state.messageCount = 0 := by
  decide

/-- C7 amended: a provider success with empty or missing text is a silent
soft failure: no assistant message is appended (the transcript gains only
the user message), the quota count and the durable entry are unchanged, and
the session returns to idle. -/
theorem hsm_empty_text (env : Env) (s : AppState) (text : Option String)
    (hblank : ¬ trimStr s.chatInput = "")
    (hauth : isUrlAuthorized env.mode env.authorizedUrl env.origin env.href = true)
    (hquota : ¬ (env.mode = Mode.Restricted ∧ CHAT_LIMIT ≤ s.messageCount))
    (hp : env.provider = ProviderResult.ok text)
    (ht : truthyText text = false) :
    (handleSendMessage env s).state.chatMessages
        = s.chatMessages ++ [⟨Role.User, s.chatInput⟩]
    ∧ (handleSendMessage env s).state.messageCount = s.messageCount
    ∧ (handleSendMessage env s).state.stored = s.stored
    ∧ (handleSendMessage env s).state.isChatLoading = false := by
  rw [hsm_ok_empty env s text hblank hauth hquota hp ht]
  exact ⟨rfl, rfl, rfl, rfl⟩

/-- Witness for the amended C7 statement at the concrete empty-text run. -/
theorem hsm_empty_text_witness :
    (handleSendMessage envEmptyOwner stateHi).state.chatMessages
        = stateHi.chatMessages ++ [⟨Role.User, "hi"⟩]
    ∧ (handleSendMessage envEmptyOwner stateHi).state.messageCount
        = stateHi.messageCount :=
  ⟨(hsm_empty_text envEmptyOwner stateHi (some "") (by decide) rfl (by decide)
      rfl rfl).1,
   (hsm_empty_text envEmptyOwner stateHi (some "") (by decide) rfl (by decide)
      rfl rfl).2.1⟩

/-- C8: when the provider call is rejected with a non-empty detail string,
the handler appends the user message and an assistant message embedding
that detail, leaves the quota count and the durable entry unchanged, and
returns the session to idle; the failure is absorbed by the catch block and
never escapes. -/
theorem hsm_provider_error_detail (env : Env) (s : AppState) (d : String)
    (hblank : ¬ trimStr s.chatInput = "")
    (hauth : isUrlAuthorized env.mode env.authorizedUrl env.origin env.href = true)
    (hquota : ¬ (env.mode = Mode.Restricted ∧ CHAT_LIMIT ≤ s.messageCount))
    (hp : env.provider = ProviderResult.err (some d))
    (hd : ¬ d = "") :
    (handleSendMessage env s).state.chatMessages
        = s.chatMessages ++ [⟨Role.User, s.chatInput⟩,
            ⟨Role.Assistant,
              "Sorry, I\x27m having trouble connecting: " ++ d ++ ". Please try again."⟩]
    ∧ (handleSendMessage env s).state.messageCount = s.messageCount
    ∧ (handleSendMessage env s).state.stored = s.stored
    ∧ (handleSendMessage env s).state.isChatLoading = false := by
  rw [hsm_err env s (some d) hblank hauth hquota hp]
  refine ⟨?_, rfl, rfl, rfl⟩
  simp [chatFailText, jsErrorMessage, hd]

/-- Witness for C8 at the spec scenario: a rejected call with detail
timeout appends an assistant message embedding timeout and leaves the count
unchanged. -/
theorem hsm_provider_error_detail_witness :
    (handleSendMessage envErrOwner stateHi).state.chatMessages
        = stateHi.chatMessages ++ [⟨Role.User, "hi"⟩,
            ⟨Role.Assistant,
              "Sorry, I\x27m having trouble connecting: " ++ "timeout" ++ ". Please try again."⟩]
    ∧ (handleSendMessage envErrOwner stateHi).state.messageCount
        = stateHi.messageCount :=
  ⟨(hsm_provider_error_detail envErrOwner stateHi "timeout" (by decide) rfl
      (by decide) rfl (by decide)).1,
   (hsm_provider_error_detail envErrOwner stateHi "timeout" (by decide) rfl
      (by decide) rfl (by decide)).2.1⟩

/-- C9 counterexample: when the durable write throws after a successful
response in Restricted mode, the exception lands in the shared catch block,
which appends a connection-error assistant message: the failure IS surfaced
in the transcript, contrary to the logged-only claim. The successful
assistant message and the incremented in-memory count are nonetheless
retained, and the durable entry is unchanged. -/
theorem store_failure_surfaced_cex :
    (handleSendMessage envStoreFail stateHi).state.chatMessages
        = [⟨Role.User, "hi"⟩, ⟨Role.Assistant, "Here you go"⟩,
           ⟨Role.Assistant, chatFailText (some "QuotaExceededError")⟩]
    ∧ (handleSendMessage envStoreFail stateHi).state.messageCount = 1
    ∧ (handleSendMessage envStoreFail stateHi).state.stored = none := by
  decide

/-- C9 amended: a throwing durable write does not block or fail the chat
turn: the successful assistant message stays appended and the incremented
in-memory count remains authoritative, the durable entry is left unchanged
and the session returns to idle; but the exception is caught by the same
catch block as provider failures, which appends a connection-error
assistant message, so the failure is surfaced to the user rather than
logged only. -/
theorem hsm_store_failure (env : Env) (s : AppState) (t : String)
    (hblank : ¬ trimStr s.chatInput = "")
    (hauth : isUrlAuthorized env.mode env.authorizedUrl env.origin env.href = true)
    (hmode : env.mode = Mode.Restricted)
    (h4 : ¬ CHAT_LIMIT ≤ s.messageCount)
    (hp : env.provider = ProviderResult.ok (some t))
    (ht : ¬ t = "")
    (hsf : env.storeFails = true) :
    (handleSendMessage env s).state.chatMessages
        = s.chatMessages ++ [⟨Role.User, s.chatInput⟩, ⟨Role.Assistant, t⟩,
            ⟨Role.Assistant, chatFailText env.storeErrMessage⟩]
    ∧ (handleSendMessage env s).state.messageCount = s.messageCount + 1
    ∧ (handleSendMessage env s).state.stored = s.stored
    ∧ (handleSendMessage env s).state.isChatLoading = false := by
  rw [hsm_ok_truthy_restricted_storeFail env s t hblank hauth hmode h4 hp ht hsf]
  exact ⟨rfl, rfl, rfl, rfl⟩

/-- Witness for the amended C9 statement at the concrete failing-write
run. -/
theorem hsm_store_failure_witness :
    (handleSendMessage envStoreFail stateHi).state.chatMessages
        = stateHi.chatMessages ++ [⟨Role.User, "hi"⟩, ⟨Role.Assistant, "Here you go"⟩,
            ⟨Role.Assistant, chatFailText (some "QuotaExceededError")⟩]
    ∧ (handleSendMessage envStoreFail stateHi).state.messageCount
        = stateHi.messageCount + 1 :=
  ⟨(hsm_store_failure envStoreFail stateHi "Here you go" (by decide) rfl rfl
      (by decide) rfl (by decide) rfl).1,
   (hsm_store_failure envStoreFail stateHi "Here you go" (by decide) rfl rfl
      (by decide) rfl (by decide) rfl).2.1⟩

/-- C10: the one-shot story-assistance generation never reads or changes
the quota count, the durable quota entry, or the chat transcript, in any
mode and for every provider outcome; and the provider is called exactly
when the editor is non-empty and the URL authorization check passes - the
right-hand side does not mention the count, so no quota-exhaustion check is
performed. -/
theorem generateAIAssistance_frame (env : Env) (s : AppState) :
    (generateAIAssistance env s).state.messageCount = s.messageCount
    ∧ (generateAIAssistance env s).state.stored = s.stored
    ∧ (generateAIAssistance env s).state.chatMessages = s.chatMessages
    ∧ (generateAIAssistance env s).calledProvider =
        (!((s.title == "") && (s.content == "")) &&
          isUrlAuthorized env.mode env.authorizedUrl env.origin env.href) := by
  unfold generateAIAssistance
  repeat' split
  all_goals try simp_all
  all_goals tauto

end Katha
